import Mathlib

/-!
Shallow embedding of `src/ext/magic/ruby-magic.c` (the Ruby binding of the
native libmagic file-type identification library).

The binding wraps an opaque native cookie in a Ruby object. The object
carries three pieces of state: the `@flags` instance variable (an integer),
the `@path` instance variable (nil or a list of strings), and an object-local
mutex. Native-library calls are modelled by an oracle environment
(`NativeEnv`) that supplies the return value / errno / result string of each
native entry point; each wrapped operation then becomes a pure function of
the object state, the argument and the oracle, returning the Ruby-level
result (a value or a raised exception), the successor object state, and a
trace of lock / native-call / free events, which is what the concurrency and
resource claims quantify over.
-/

namespace RubyMagic

/-- Linux value of the ENOSYS errno used by the C sources. -/
def ENOSYS : Int := 38

/-- Linux value of the EINVAL errno used by the C sources. -/
def EINVAL : Int := 22

/-- Ruby values as far as the binding produces or consumes them. -/
inductive RValue where
  | nil
  | bool (b : Bool)
  | int (n : Int)
  | str (s : String)
  | strList (l : List String)
  deriving DecidableEq, Repr

/-- Exception classes raised by the binding: Ruby's TypeError (from
`Check_Type`), and the classes registered in `Init_magic`
(`Magic::MagicError`, `Magic::FlagsError`, `Magic::NotImplementedError`). -/
inductive ErrClass where
  | typeError
  | magicError
  | flagsError
  | notImplementedError
  deriving DecidableEq, Repr

/-- A raised exception: its class, its `@errno` attribute (absent for plain
`rb_raise` style errors such as TypeError), and its message. Mirrors
`magic_exception_t` plus the `@errno` set in `magic_exception`. -/
structure MagicExc where
  klass : ErrClass
  errno : Option Int
  message : String
  deriving DecidableEq, Repr

/-- The Ruby-visible state of one Magic object: whether `DATA_PTR(object)`
still holds a live native cookie, the `@flags` instance variable, and the
`@path` instance variable (`none` models Ruby `nil`). -/
structure MagicState where
  cookie : Bool
  flags : Int
  path : Option (List String)
  deriving DecidableEq, Repr

/-- Events recorded while an operation runs: mutex lock/unlock (from
`magic_lock` / `magic_unlock`), an invocation of a native-library entry
point, and the `magic_free` destruction of the cookie. -/
inductive Event where
  | lock
  | unlock
  | native (name : String)
  | free
  deriving DecidableEq, Repr

/-- Oracle for the native library and the process environment: the results
the native calls made by `ruby-magic.c` would return. `load_rv`, `check_rv`
and `compile_rv` take the colon-joined path argument (`none` when
`ma.file.path` was never assigned) and the flags; `setflags_rv` and
`setflags_errno` take the requested flag value; `magic_error_msg` and
`magic_errno_val` are `magic_error(cookie)` / `magic_errno(cookie)`;
`getpath` is `magic_getpath_wrapper()`; `magicEnvSet` is whether
`getenv("MAGIC")` is non-null. -/
structure NativeEnv where
  setflags_rv : Int → Int
  setflags_errno : Int → Int
  version_rv : Int
  version_errno : Int
  load_rv : Option String → Int → Int
  check_rv : Option String → Int → Int
  compile_rv : Option String → Int → Int
  file_res : String → Option String
  buffer_res : String → Option String
  descriptor_res : Int → Option String
  magic_error_msg : Option String
  magic_errno_val : Int
  getpath : String
  magicEnvSet : Bool

/-- Result of one wrapped operation: the Ruby-level outcome (`.error` models
a raised exception), the object state when the operation ends, and the event
trace. -/
structure OpResult where
  result : Except MagicExc RValue
  state : MagicState
  trace : List Event

/-- Modelled from the spec: the header `ruby-magic.h` (not under `src/`)
defines the `E_NOT_IMPLEMENTED` error string used for the not-implemented
error of section 7 of the spec. -/
def e_not_implemented : String := "function is not implemented"

/-- Modelled from the spec: the header `ruby-magic.h` (not under `src/`)
defines the `E_INVALID_ARGUMENT` error string used for the flags error of
section 7 of the spec. -/
def e_invalid_argument : String := "invalid argument"

/-- Modelled from the spec: the header `ruby-magic.h` (not under `src/`)
defines the `E_UNKNOWN` fallback error string of `magic_library_error`. -/
def e_unknown : String := "an unknown error has occurred"

/-- Modelled from the spec: the `CHECK_MAGIC_OPEN` macro of `ruby-magic.h`
(not under `src/`); per the spec, "operating on a closed object always
raises", so the macro raises an exception when the object no longer holds a
live cookie. Raised via `rb_raise`, so it carries no `@errno`. -/
def check_magic_open_error : MagicExc :=
  ⟨ErrClass.magicError, none, "Magic library is not open"⟩

/-- The TypeError raised by Ruby's `Check_Type` on an argument of the wrong
type; it carries no `@errno`. -/
def check_type_error : MagicExc :=
  ⟨ErrClass.typeError, none, "wrong argument type"⟩

/-- Embeds `magic_generic_error` (the `MAGIC_GENERIC_ERROR` raise sites):
an exception of the given class carrying the given errno and message. -/
def magic_generic_error (klass : ErrClass) (e : Int) (msg : String) : MagicExc :=
  ⟨klass, some e, msg⟩

/-- Embeds `magic_library_error` (the `MAGIC_LIBRARY_ERROR` raise sites):
starts from errno `-1` and the `E_UNKNOWN` message, then overrides both with
`magic_errno(cookie)` / `magic_error(cookie)` when the library supplies a
message. The raised class is `Magic::MagicError`. -/
def magic_library_error (env : NativeEnv) : MagicExc :=
  match env.magic_error_msg with
  | some msg => ⟨ErrClass.magicError, some env.magic_errno_val, msg⟩
  | none => ⟨ErrClass.magicError, some (-1), e_unknown⟩

/-- Embeds the `magic_join(arguments, ":")` helper: colon-joins a list of
path strings. -/
def magic_join (l : List String) : String := String.intercalate ":" l

/-- Modelled from the spec: the `magic_split` helper of `ruby-magic.h` (not
under `src/`), which per the spec "recomputes the list by splitting the
native default search path on ':'". -/
def magic_split (s : String) : List String := s.splitOn ":"

/-- True when the operation raised an exception. -/
def raises (r : OpResult) : Bool :=
  match r.result with
  | Except.error _ => true
  | Except.ok _ => false

/-- Embeds `rb_mgc_close` (`ruby-magic.c:121-137`): when the cookie is live,
free it and null out `DATA_PTR`; in every case return `nil`. -/
def rb_mgc_close (s : MagicState) : OpResult :=
  if s.cookie then
    ⟨Except.ok RValue.nil, { s with cookie := false }, [Event.free]⟩
  else
    ⟨Except.ok RValue.nil, s, []⟩

/-- Embeds `rb_mgc_closed` (`ruby-magic.c:150-162`): false when `DATA_PTR`
and the cookie are live, true otherwise. -/
def rb_mgc_closed (s : MagicState) : OpResult :=
  if s.cookie then
    ⟨Except.ok (RValue.bool false), s, []⟩
  else
    ⟨Except.ok (RValue.bool true), s, []⟩

/-- Embeds `rb_mgc_get_path` (`ruby-magic.c:173-190`): after
`CHECK_MAGIC_OPEN`, returns the cached `@path` when it is non-nil, non-empty
and `getenv("MAGIC")` is unset; otherwise recomputes the list by splitting
`magic_getpath_wrapper()` on `:` and stores it back into `@path`
(`rb_ivar_set` returns the stored value). -/
def rb_mgc_get_path (env : NativeEnv) (s : MagicState) : OpResult :=
  if s.cookie = false then
    ⟨Except.error check_magic_open_error, s, []⟩
  else
    match s.path with
    | some l =>
      if l.isEmpty || env.magicEnvSet then
        ⟨Except.ok (RValue.strList (magic_split env.getpath)),
          { s with path := some (magic_split env.getpath) },
          [Event.native "magic_getpath"]⟩
      else
        ⟨Except.ok (RValue.strList l), s, []⟩
    | none =>
      ⟨Except.ok (RValue.strList (magic_split env.getpath)),
        { s with path := some (magic_split env.getpath) },
        [Event.native "magic_getpath"]⟩

/-- Embeds `rb_mgc_get_flags` (`ruby-magic.c:203-208`): after
`CHECK_MAGIC_OPEN`, returns the `@flags` instance variable. -/
def rb_mgc_get_flags (s : MagicState) : OpResult :=
  if s.cookie = false then
    ⟨Except.error check_magic_open_error, s, []⟩
  else
    ⟨Except.ok (RValue.int s.flags), s, []⟩

/-- Embeds `rb_mgc_set_flags` (`ruby-magic.c:220-250`): checks the argument
is a Fixnum, checks the object is open, calls `magic_setflags_wrapper`; on a
negative return dispatches on `errno` (ENOSYS → NotImplementedError, EINVAL
→ FlagsError, otherwise the library error); on success stores the value into
`@flags` and returns it. -/
def rb_mgc_set_flags (env : NativeEnv) (s : MagicState) (value : RValue) : OpResult :=
  match value with
  | RValue.int v =>
    if s.cookie = false then
      ⟨Except.error check_magic_open_error, s, []⟩
    else
      if env.setflags_rv v < 0 then
        if env.setflags_errno v = ENOSYS then
          ⟨Except.error
            (magic_generic_error ErrClass.notImplementedError ENOSYS e_not_implemented),
            s, [Event.native "magic_setflags"]⟩
        else if env.setflags_errno v = EINVAL then
          ⟨Except.error
            (magic_generic_error ErrClass.flagsError EINVAL e_invalid_argument),
            s, [Event.native "magic_setflags"]⟩
        else
          ⟨Except.error (magic_library_error env), s, [Event.native "magic_setflags"]⟩
      else
        ⟨Except.ok (RValue.int v), { s with flags := v }, [Event.native "magic_setflags"]⟩
  | _ => ⟨Except.error check_type_error, s, []⟩

/-- Embeds `rb_mgc_load` (`ruby-magic.c:264-290`): after `CHECK_MAGIC_OPEN`,
the path argument is the colon-join of the arguments, or — when none were
given — the result of the native `magic_getpath_wrapper()` call made at
`ruby-magic.c:278`, before and outside `MAGIC_SYNCHRONIZED`, so that call is
recorded as a native event with no lock around it; the native load then runs
under `MAGIC_SYNCHRONIZED`; a negative return raises the library error; on
success the colon-split of the path is stored into `@path` and returned. -/
def rb_mgc_load (env : NativeEnv) (s : MagicState) (args : List String) : OpResult :=
  if s.cookie = false then
    ⟨Except.error check_magic_open_error, s, []⟩
  else
    if env.load_rv (some (if args.isEmpty then env.getpath else magic_join args))
        s.flags < 0 then
      ⟨Except.error (magic_library_error env), s,
        (if args.isEmpty then [Event.native "magic_getpath"] else []) ++
          [Event.lock, Event.native "magic_load", Event.unlock]⟩
    else
      ⟨Except.ok (RValue.strList (magic_split (if args.isEmpty then env.getpath else magic_join args))), { s with path := some (magic_split (if args.isEmpty then env.getpath else magic_join args)) }, (if args.isEmpty then [Event.native "magic_getpath"] else []) ++ [Event.lock, Event.native "magic_load", Event.unlock]⟩

/-- Embeds `rb_mgc_check` (`ruby-magic.c:301-322`): after
`CHECK_MAGIC_OPEN`, the path argument is the colon-join of the arguments
when any were given (otherwise left unset); the native check runs under
`MAGIC_SYNCHRONIZED`; a negative return yields `false`, otherwise `true` —
no exception is raised on failure. -/
def rb_mgc_check (env : NativeEnv) (s : MagicState) (args : List String) : OpResult :=
  if s.cookie = false then
    ⟨Except.error check_magic_open_error, s, []⟩
  else
    if env.check_rv (if args.isEmpty then none else some (magic_join args))
        s.flags < 0 then
      ⟨Except.ok (RValue.bool false), s,
        [Event.lock, Event.native "magic_check", Event.unlock]⟩
    else
      ⟨Except.ok (RValue.bool true), s,
        [Event.lock, Event.native "magic_check", Event.unlock]⟩

/-- Embeds `rb_mgc_compile` (`ruby-magic.c:334-354`): after
`CHECK_MAGIC_OPEN`, the path argument is the colon-join of the arguments
when any were given; the native compile runs under `MAGIC_SYNCHRONIZED`; a
negative return raises the library error; on success returns `true`. -/
def rb_mgc_compile (env : NativeEnv) (s : MagicState) (args : List String) : OpResult :=
  if s.cookie = false then
    ⟨Except.error check_magic_open_error, s, []⟩
  else
    if env.compile_rv (if args.isEmpty then none else some (magic_join args))
        s.flags < 0 then
      ⟨Except.error (magic_library_error env), s,
        [Event.lock, Event.native "magic_compile", Event.unlock]⟩
    else
      ⟨Except.ok (RValue.bool true), s,
        [Event.lock, Event.native "magic_compile", Event.unlock]⟩

/-- Embeds `rb_mgc_file` (`ruby-magic.c:364-383`): checks the argument is a
String, checks the object is open, runs `magic_file` under
`MAGIC_SYNCHRONIZED`; a null result raises the library error, otherwise the
description string is returned. -/
def rb_mgc_file (env : NativeEnv) (s : MagicState) (value : RValue) : OpResult :=
  match value with
  | RValue.str p =>
    if s.cookie = false then
      ⟨Except.error check_magic_open_error, s, []⟩
    else
      match env.file_res p with
      | none =>
        ⟨Except.error (magic_library_error env), s,
          [Event.lock, Event.native "magic_file", Event.unlock]⟩
      | some r =>
        ⟨Except.ok (RValue.str r), s,
          [Event.lock, Event.native "magic_file", Event.unlock]⟩
  | _ => ⟨Except.error check_type_error, s, []⟩

/-- Embeds `rb_mgc_buffer` (`ruby-magic.c:393-410`): checks the argument is
a String, checks the object is open, then calls the native `magic_buffer`
directly — not through `MAGIC_SYNCHRONIZED`, so no lock event brackets the
native call; a null result raises the library error. -/
def rb_mgc_buffer (env : NativeEnv) (s : MagicState) (value : RValue) : OpResult :=
  match value with
  | RValue.str b =>
    if s.cookie = false then
      ⟨Except.error check_magic_open_error, s, []⟩
    else
      match env.buffer_res b with
      | none =>
        ⟨Except.error (magic_library_error env), s, [Event.native "magic_buffer"]⟩
      | some r =>
        ⟨Except.ok (RValue.str r), s, [Event.native "magic_buffer"]⟩
  | _ => ⟨Except.error check_type_error, s, []⟩

/-- Embeds `rb_mgc_descriptor` (`ruby-magic.c:420-439`): checks the argument
is a Fixnum, checks the object is open, runs `magic_descriptor` under
`MAGIC_SYNCHRONIZED`; a null result raises the library error. -/
def rb_mgc_descriptor (env : NativeEnv) (s : MagicState) (value : RValue) : OpResult :=
  match value with
  | RValue.int fd =>
    if s.cookie = false then
      ⟨Except.error check_magic_open_error, s, []⟩
    else
      match env.descriptor_res fd with
      | none =>
        ⟨Except.error (magic_library_error env), s,
          [Event.lock, Event.native "magic_descriptor", Event.unlock]⟩
      | some r =>
        ⟨Except.ok (RValue.str r), s,
          [Event.lock, Event.native "magic_descriptor", Event.unlock]⟩
  | _ => ⟨Except.error check_type_error, s, []⟩

/-- Embeds `rb_mgc_version` (`ruby-magic.c:450-467`): a singleton method
that ignores the object (`UNUSED(object)`), calls `magic_version_wrapper`,
and raises NotImplementedError with errno ENOSYS exactly when the return
value is negative and `errno` is ENOSYS; otherwise returns the value. -/
def rb_mgc_version (env : NativeEnv) : Except MagicExc RValue × List Event :=
  if env.version_rv < 0 ∧ env.version_errno = ENOSYS then
    (Except.error
      (magic_generic_error ErrClass.notImplementedError ENOSYS e_not_implemented),
      [Event.native "magic_version"])
  else
    (Except.ok (RValue.int env.version_rv), [Event.native "magic_version"])

/-- Every native-call event in the trace happens while the mutex depth
(starting from the given depth) is positive. -/
def guardedFrom : List Event → Nat → Bool
  | [], _ => true
  | Event.lock :: r, d => guardedFrom r (d + 1)
  | Event.unlock :: r, d => guardedFrom r (d - 1)
  | Event.native _ :: r, d => decide (0 < d) && guardedFrom r d
  | Event.free :: r, d => guardedFrom r d

/-- Every native call in the trace is made while the object mutex is held. -/
def lockGuarded (tr : List Event) : Bool := guardedFrom tr 0

/-- Net lock depth of a trace, starting from the given depth. -/
def depthFrom : List Event → Int → Int
  | [], d => d
  | Event.lock :: r, d => depthFrom r (d + 1)
  | Event.unlock :: r, d => depthFrom r (d - 1)
  | _ :: r, d => depthFrom r d

/-- The lock is not left held when the operation ends: as many unlocks as
locks in the trace. -/
def lockBalanced (tr : List Event) : Bool := depthFrom tr 0 = 0

/-! Concrete fixtures used by the counterexamples and witnesses. -/

/-- A Magic object whose cookie has been closed (`DATA_PTR` is null). -/
def sClosed : MagicState := ⟨false, 0, none⟩

/-- A freshly opened Magic object with default flags and no cached path. -/
def sOpen : MagicState := ⟨true, 0, none⟩

/-- An open Magic object with a non-empty cached `@path`. -/
def sCached : MagicState := ⟨true, 0, some ["/etc/magic", "/usr/share/misc/magic"]⟩

/-- An oracle in which every native call succeeds and `MAGIC` is unset. -/
def envOk : NativeEnv :=
  ⟨fun _ => 0, fun _ => 0, 528, 0, fun _ _ => 0, fun _ _ => 0, fun _ _ => 0,
    fun _ => some "ASCII text", fun _ => some "ASCII text", fun _ => some "ASCII text",
    none, 0, "/etc/magic:/usr/share/misc/magic", false⟩

/-- An oracle in which every native call fails; `magic_setflags_wrapper`
fails with EINVAL, and the library supplies an error message and errno 2. -/
def envFail : NativeEnv :=
  ⟨fun _ => -1, fun _ => EINVAL, -1, EINVAL, fun _ _ => -1, fun _ _ => -1, fun _ _ => -1,
    fun _ => none, fun _ => none, fun _ => none,
    some "could not find any magic files", 2, "/etc/magic:/usr/share/misc/magic", false⟩

/-- An oracle in which the version and flag-setting entry points are missing
from the linked native library: both fail with ENOSYS. -/
def envNoSys : NativeEnv :=
  ⟨fun _ => -1, fun _ => ENOSYS, -1, ENOSYS, fun _ _ => 0, fun _ _ => 0, fun _ _ => 0,
    fun _ => some "ASCII text", fun _ => some "ASCII text", fun _ => some "ASCII text",
    none, 0, "/etc/magic:/usr/share/misc/magic", false⟩

/-- C1 (counterexample): on a closed Magic object, `close` and `closed?`
complete normally (returning `nil` and `true`) instead of raising, and
`version` ignores the object entirely and returns the native version number,
so the claim that every listed operation raises on a closed object is false
at these inputs. -/
theorem c1_counterexample :
    raises (rb_mgc_close sClosed) = false ∧
    raises (rb_mgc_closed sClosed) = false ∧
    (rb_mgc_close sClosed).result = Except.ok RValue.nil ∧
    (rb_mgc_closed sClosed).result = Except.ok (RValue.bool true) ∧
    (rb_mgc_version envOk).1 = Except.ok (RValue.int 528) :=
  ⟨rfl, rfl, rfl, rfl, rfl⟩

/-- C1 (amended): on a Magic object whose native cookie has been closed,
the operations `path`, `flags`, `flags=`, `load`, `check`, `compile`,
`file`, `buffer` and `descriptor` raise an exception rather than completing
normally; `close` returns `nil` and `closed?` returns `true` without
raising, and `version` does not consult the object. -/
theorem c1_amended (env : NativeEnv) (s : MagicState) (h : s.cookie = false)
    (args : List String) (v : RValue) :
    raises (rb_mgc_get_path env s) = true ∧
    raises (rb_mgc_get_flags s) = true ∧
    raises (rb_mgc_set_flags env s v) = true ∧
    raises (rb_mgc_load env s args) = true ∧
    raises (rb_mgc_check env s args) = true ∧
    raises (rb_mgc_compile env s args) = true ∧
    raises (rb_mgc_file env s v) = true ∧
    raises (rb_mgc_buffer env s v) = true ∧
    raises (rb_mgc_descriptor env s v) = true ∧
    (rb_mgc_close s).result = Except.ok RValue.nil ∧
    (rb_mgc_closed s).result = Except.ok (RValue.bool true) := by
  cases v <;>
    simp [rb_mgc_get_path, rb_mgc_get_flags, rb_mgc_set_flags, rb_mgc_load,
      rb_mgc_check, rb_mgc_compile, rb_mgc_file, rb_mgc_buffer, rb_mgc_descriptor,
      rb_mgc_close, rb_mgc_closed, raises, h]

/-- C1 (witness): the amended theorem applied to a concrete closed object. -/
theorem c1_amended_witness :
    raises (rb_mgc_get_flags sClosed) = true ∧
    raises (rb_mgc_load envOk sClosed []) = true :=
  ⟨(c1_amended envOk sClosed rfl [] (RValue.int 0)).2.1,
    (c1_amended envOk sClosed rfl [] (RValue.int 0)).2.2.2.1⟩

/-- C2 (counterexample): when the native `magic_check_wrapper` returns a
negative value, `check` does not raise at all — it returns `false` — so the
claim that every wrapped operation raises on a negative native return is
false at this input. -/
theorem c2_counterexample :
    raises (rb_mgc_check envFail sOpen ["/nonexistent"]) = false ∧
    (rb_mgc_check envFail sOpen ["/nonexistent"]).result =
      Except.ok (RValue.bool false) :=
  ⟨rfl, rfl⟩

/-- C2 (amended): on an open object, whenever the native call backing
`load`, `compile`, `file`, `buffer` or `descriptor` returns a negative value
or a null pointer, the operation raises `Magic::MagicError` carrying the
native error number (`magic_errno`) and the native error message
(`magic_error`) when the library supplies a message; `check`, by contrast,
returns `false` without raising when its native call fails. -/
theorem c2_amended (env : NativeEnv) (s : MagicState) (h : s.cookie = true)
    (args : List String) (p b : String) (fd : Int) (m : String)
    (hmsg : env.magic_error_msg = some m) :
    (env.load_rv (some (if args.isEmpty then env.getpath else magic_join args))
        s.flags < 0 →
      (rb_mgc_load env s args).result =
        Except.error ⟨ErrClass.magicError, some env.magic_errno_val, m⟩) ∧
    (env.compile_rv (if args.isEmpty then none else some (magic_join args))
        s.flags < 0 →
      (rb_mgc_compile env s args).result =
        Except.error ⟨ErrClass.magicError, some env.magic_errno_val, m⟩) ∧
    (env.file_res p = none →
      (rb_mgc_file env s (RValue.str p)).result =
        Except.error ⟨ErrClass.magicError, some env.magic_errno_val, m⟩) ∧
    (env.buffer_res b = none →
      (rb_mgc_buffer env s (RValue.str b)).result =
        Except.error ⟨ErrClass.magicError, some env.magic_errno_val, m⟩) ∧
    (env.descriptor_res fd = none →
      (rb_mgc_descriptor env s (RValue.int fd)).result =
        Except.error ⟨ErrClass.magicError, some env.magic_errno_val, m⟩) ∧
    (env.check_rv (if args.isEmpty then none else some (magic_join args))
        s.flags < 0 →
      (rb_mgc_check env s args).result = Except.ok (RValue.bool false)) := by
  refine ⟨?_, ?_, ?_, ?_, ?_, ?_⟩ <;> intro hx <;>
    simp [rb_mgc_load, rb_mgc_compile, rb_mgc_file, rb_mgc_buffer,
      rb_mgc_descriptor, rb_mgc_check, magic_library_error, h, hmsg] at hx ⊢ <;>
    simp [hx]

/-- C2 (witness): the amended theorem applied to a concrete failing oracle:
`load` raises the library error carrying errno 2 and the library message,
and `check` returns `false`. -/
theorem c2_amended_witness :
    (rb_mgc_load envFail sOpen ["/a"]).result =
      Except.error ⟨ErrClass.magicError, some 2, "could not find any magic files"⟩ ∧
    (rb_mgc_check envFail sOpen ["/a"]).result = Except.ok (RValue.bool false) :=
  ⟨(c2_amended envFail sOpen rfl ["/a"] "/f" "buf" 3
      "could not find any magic files" rfl).1 (by decide),
    (c2_amended envFail sOpen rfl ["/a"] "/f" "buf" 3
      "could not find any magic files" rfl).2.2.2.2.2 (by decide)⟩

/-- C3: on an open Magic object, when the native library accepts the flag
value (`magic_setflags_wrapper` returns non-negatively), `flags= v` returns
`v` and a subsequent `flags` read returns exactly `v`: the setter
round-trips through the getter. -/
theorem c3_roundtrip (env : NativeEnv) (s : MagicState) (h : s.cookie = true)
    (v : Int) (hacc : 0 ≤ env.setflags_rv v) :
    (rb_mgc_set_flags env s (RValue.int v)).result = Except.ok (RValue.int v) ∧
    (rb_mgc_get_flags (rb_mgc_set_flags env s (RValue.int v)).state).result =
      Except.ok (RValue.int v) := by
  simp [rb_mgc_set_flags, rb_mgc_get_flags, h, not_lt.mpr hacc]

/-- C3 (witness): the round-trip theorem at the concrete value 1040
(Magic::MIME) on a fresh open object with an accepting oracle. -/
theorem c3_roundtrip_witness :
    (rb_mgc_set_flags envOk sOpen (RValue.int 1040)).result =
      Except.ok (RValue.int 1040) ∧
    (rb_mgc_get_flags (rb_mgc_set_flags envOk sOpen (RValue.int 1040)).state).result =
      Except.ok (RValue.int 1040) :=
  c3_roundtrip envOk sOpen rfl 1040 (by decide)

/-- A `MAGIC_SYNCHRONIZED` trace has its native call under the lock and
releases the lock at the end. -/
theorem trace_sync_ok (n : String) :
    lockGuarded [Event.lock, Event.native n, Event.unlock] = true ∧
    lockBalanced [Event.lock, Event.native n, Event.unlock] = true :=
  ⟨rfl, rfl⟩

/-- The empty trace is guarded and balanced. -/
theorem trace_nil_ok : lockGuarded [] = true ∧ lockBalanced [] = true :=
  ⟨rfl, rfl⟩

/-- C4 (counterexample): `buffer` on an open object invokes the native
`magic_buffer` with no lock event around it, so its trace is not
lock-guarded; the claim that every operation acquires the object-local mutex
before its native call is false at this input. -/
theorem c4_counterexample :
    (rb_mgc_buffer envOk sOpen (RValue.str "data")).trace =
      [Event.native "magic_buffer"] ∧
    lockGuarded (rb_mgc_buffer envOk sOpen (RValue.str "data")).trace = false ∧
    (rb_mgc_set_flags envOk sOpen (RValue.int 0)).trace =
      [Event.native "magic_setflags"] ∧
    lockGuarded (rb_mgc_set_flags envOk sOpen (RValue.int 0)).trace = false :=
  ⟨rfl, rfl, rfl, rfl⟩

/-- C4 (amended): the operations that run a native call through
`MAGIC_SYNCHRONIZED` — `load`, `check`, `compile`, `file` and `descriptor` —
acquire the object-local mutex before that synchronized native call and
release it on every exit path (success, native failure, and the
raised-exception path), and no operation ever ends with the lock held; but
`flags=`, `buffer`, `path` and `version` invoke their native entry points
without taking the mutex, and `load` called with no arguments first invokes
the native `magic_getpath_wrapper` outside the mutex, before its
synchronized `magic_load` call, so its whole trace is lock-guarded only
when arguments are given. -/
theorem c4_amended (env : NativeEnv) (s : MagicState) (args : List String)
    (v : RValue) :
    (args.isEmpty = false → lockGuarded (rb_mgc_load env s args).trace = true) ∧
    (s.cookie = true → args.isEmpty = true →
      (rb_mgc_load env s args).trace =
        [Event.native "magic_getpath", Event.lock, Event.native "magic_load",
          Event.unlock] ∧
      lockGuarded (rb_mgc_load env s args).trace = false) ∧
    lockBalanced (rb_mgc_load env s args).trace = true ∧
    (lockGuarded (rb_mgc_check env s args).trace = true ∧
      lockBalanced (rb_mgc_check env s args).trace = true) ∧
    (lockGuarded (rb_mgc_compile env s args).trace = true ∧
      lockBalanced (rb_mgc_compile env s args).trace = true) ∧
    (lockGuarded (rb_mgc_file env s v).trace = true ∧
      lockBalanced (rb_mgc_file env s v).trace = true) ∧
    (lockGuarded (rb_mgc_descriptor env s v).trace = true ∧
      lockBalanced (rb_mgc_descriptor env s v).trace = true) ∧
    lockBalanced (rb_mgc_set_flags env s v).trace = true ∧
    lockBalanced (rb_mgc_buffer env s v).trace = true ∧
    lockBalanced (rb_mgc_get_path env s).trace = true ∧
    lockBalanced (rb_mgc_close s).trace = true ∧
    lockBalanced (rb_mgc_closed s).trace = true ∧
    lockBalanced (rb_mgc_get_flags s).trace = true ∧
    lockBalanced (rb_mgc_version env).2 = true := by
  cases v <;> cases args <;>
    unfold rb_mgc_load rb_mgc_check rb_mgc_compile rb_mgc_file rb_mgc_buffer
      rb_mgc_descriptor rb_mgc_set_flags rb_mgc_get_path rb_mgc_close
      rb_mgc_closed rb_mgc_get_flags rb_mgc_version <;>
    refine ⟨?_, ?_, ?_, ?_, ?_, ?_, ?_, ?_, ?_, ?_, ?_, ?_, ?_, ?_⟩ <;>
    intros <;>
    (repeat' split) <;>
    first
      | exact ⟨rfl, rfl⟩
      | rfl
      | simp_all

/-- C4 (witness): the amended theorem at concrete inputs — `load` with an
explicit path list is lock-guarded, while `load` with no arguments makes
the unguarded native `magic_getpath_wrapper` call before taking the lock. -/
theorem c4_amended_witness :
    lockGuarded (rb_mgc_load envOk sOpen ["/etc/magic"]).trace = true ∧
    (rb_mgc_load envOk sOpen []).trace =
      [Event.native "magic_getpath", Event.lock, Event.native "magic_load",
        Event.unlock] ∧
    lockGuarded (rb_mgc_load envOk sOpen []).trace = false :=
  ⟨(c4_amended envOk sOpen ["/etc/magic"] RValue.nil).1 rfl,
    ((c4_amended envOk sOpen [] RValue.nil).2.1 rfl rfl).1,
    ((c4_amended envOk sOpen [] RValue.nil).2.1 rfl rfl).2⟩

/-- C5: closing a successfully opened Magic object frees the native cookie
(the trace records the `magic_free`), returns `nil`, and leaves the object
in a state where `closed?` returns `true`. -/
theorem c5_close (s : MagicState) (h : s.cookie = true) :
    (rb_mgc_close s).result = Except.ok RValue.nil ∧
    (rb_mgc_close s).trace = [Event.free] ∧
    (rb_mgc_close s).state.cookie = false ∧
    (rb_mgc_closed (rb_mgc_close s).state).result = Except.ok (RValue.bool true) := by
  simp [rb_mgc_close, rb_mgc_closed, h]

/-- C5 (witness): the close theorem at a concrete open object. -/
theorem c5_close_witness :
    (rb_mgc_close sOpen).result = Except.ok RValue.nil ∧
    (rb_mgc_close sOpen).trace = [Event.free] ∧
    (rb_mgc_close sOpen).state.cookie = false ∧
    (rb_mgc_closed (rb_mgc_close sOpen).state).result = Except.ok (RValue.bool true) :=
  c5_close sOpen rfl

/-- C6: when the native version entry point is missing (negative return with
errno ENOSYS), `version` raises NotImplementedError carrying errno ENOSYS;
when the native flag-setting entry point is missing (negative return with
errno ENOSYS), `flags=` on an open object raises NotImplementedError
carrying errno ENOSYS. -/
theorem c6_enosys (env : NativeEnv) (s : MagicState) (v : Int)
    (h : s.cookie = true)
    (hvr : env.version_rv < 0) (hve : env.version_errno = ENOSYS)
    (hsr : env.setflags_rv v < 0) (hse : env.setflags_errno v = ENOSYS) :
    (rb_mgc_version env).1 =
      Except.error ⟨ErrClass.notImplementedError, some ENOSYS, e_not_implemented⟩ ∧
    (rb_mgc_set_flags env s (RValue.int v)).result =
      Except.error ⟨ErrClass.notImplementedError, some ENOSYS, e_not_implemented⟩ := by
  simp [rb_mgc_version, rb_mgc_set_flags, magic_generic_error, h, hvr, hve, hsr, hse]

/-- C6 (witness): the ENOSYS theorem at a concrete oracle whose version and
flag-setting entry points are missing. -/
theorem c6_enosys_witness :
    (rb_mgc_version envNoSys).1 =
      Except.error ⟨ErrClass.notImplementedError, some ENOSYS, e_not_implemented⟩ ∧
    (rb_mgc_set_flags envNoSys sOpen (RValue.int 7)).result =
      Except.error ⟨ErrClass.notImplementedError, some ENOSYS, e_not_implemented⟩ :=
  c6_enosys envNoSys sOpen 7 rfl (by decide) rfl (by decide) rfl

/-- C7: when `flags=` is called on an open object with a value the native
library rejects as invalid (negative return with errno EINVAL), the
operation raises FlagsError carrying errno EINVAL. -/
theorem c7_einval (env : NativeEnv) (s : MagicState) (v : Int)
    (h : s.cookie = true)
    (hr : env.setflags_rv v < 0) (he : env.setflags_errno v = EINVAL) :
    (rb_mgc_set_flags env s (RValue.int v)).result =
      Except.error ⟨ErrClass.flagsError, some EINVAL, e_invalid_argument⟩ := by
  simp [rb_mgc_set_flags, magic_generic_error, h, hr, he, ENOSYS, EINVAL]

/-- C7 (witness): the EINVAL theorem at a concrete rejecting oracle. -/
theorem c7_einval_witness :
    (rb_mgc_set_flags envFail sOpen (RValue.int 7)).result =
      Except.error ⟨ErrClass.flagsError, some EINVAL, e_invalid_argument⟩ :=
  c7_einval envFail sOpen 7 rfl (by decide) rfl

/-- C8: whenever `flags=` raises — on a non-integer argument, on a closed
object, or on a native-call failure — the whole object state, and in
particular the stored `@flags`, is left unchanged: every raise site comes
before the `rb_ivar_set` that writes the new value. -/
theorem c8_flags_unchanged (env : NativeEnv) (s : MagicState) (v : RValue)
    (h : raises (rb_mgc_set_flags env s v) = true) :
    (rb_mgc_set_flags env s v).state = s ∧
    (rb_mgc_set_flags env s v).state.flags = s.flags := by
  cases v with
  | int n =>
    by_cases hc : s.cookie = false
    · simp [rb_mgc_set_flags, hc]
    · by_cases hr : env.setflags_rv n < 0
      · by_cases h1 : env.setflags_errno n = ENOSYS
        · simp [rb_mgc_set_flags, hc, hr, h1]
        · by_cases h2 : env.setflags_errno n = EINVAL
          · simp [rb_mgc_set_flags, hc, hr, h1, h2, ENOSYS, EINVAL]
          · simp [rb_mgc_set_flags, hc, hr, h1, h2]
      · exfalso
        simp [rb_mgc_set_flags, raises, hc, hr] at h
  | nil => exact ⟨rfl, rfl⟩
  | bool b => exact ⟨rfl, rfl⟩
  | str t => exact ⟨rfl, rfl⟩
  | strList l => exact ⟨rfl, rfl⟩

/-- C8 (witness): the flags-unchanged theorem at a concrete failing
assignment. -/
theorem c8_flags_unchanged_witness :
    (rb_mgc_set_flags envFail sOpen (RValue.int 0)).state = sOpen ∧
    (rb_mgc_set_flags envFail sOpen (RValue.int 0)).state.flags = sOpen.flags :=
  c8_flags_unchanged envFail sOpen (RValue.int 0) (by decide)

/-- C9: `close` on an already-closed Magic object is a no-op: it returns
`nil` without raising, records no `magic_free` in the trace, leaves the
state unchanged, and the object remains closed. -/
theorem c9_idempotent (s : MagicState) (h : s.cookie = false) :
    rb_mgc_close s = ⟨Except.ok RValue.nil, s, []⟩ ∧
    (rb_mgc_closed (rb_mgc_close s).state).result = Except.ok (RValue.bool true) := by
  simp [rb_mgc_close, rb_mgc_closed, h]

/-- C9 (witness): the idempotence theorem at a concrete closed object. -/
theorem c9_idempotent_witness :
    rb_mgc_close sClosed = ⟨Except.ok RValue.nil, sClosed, []⟩ ∧
    (rb_mgc_closed (rb_mgc_close sClosed).state).result =
      Except.ok (RValue.bool true) :=
  c9_idempotent sClosed rfl

/-- C10: on an open object, `path` returns the cached `@path` unchanged
(state included) when it is non-nil, non-empty and the MAGIC environment
variable is unset; otherwise it returns the colon-split of the native
default search path and stores that list back into `@path`. -/
theorem c10_path (env : NativeEnv) (s : MagicState) (h : s.cookie = true) :
    (∀ l, s.path = some l → l.isEmpty = false → env.magicEnvSet = false →
      rb_mgc_get_path env s = ⟨Except.ok (RValue.strList l), s, []⟩) ∧
    ((s.path = none ∨
        ∃ l, s.path = some l ∧ (l.isEmpty = true ∨ env.magicEnvSet = true)) →
      (rb_mgc_get_path env s).result =
        Except.ok (RValue.strList (magic_split env.getpath)) ∧
      (rb_mgc_get_path env s).state.path = some (magic_split env.getpath)) := by
  constructor
  · intro l hl he hm
    simp [rb_mgc_get_path, h, hl, he, hm]
  · rintro (hn | ⟨l, hl, he | hm⟩)
    · simp [rb_mgc_get_path, h, hn]
    · simp [rb_mgc_get_path, h, hl, he]
    · simp [rb_mgc_get_path, h, hl, hm]

/-- C10 (witness): the path theorem at a concrete cached object (cache hit)
and at a fresh object with no cache (recompute and store). -/
theorem c10_path_witness :
    rb_mgc_get_path envOk sCached =
      ⟨Except.ok (RValue.strList ["/etc/magic", "/usr/share/misc/magic"]), sCached, []⟩ ∧
    (rb_mgc_get_path envOk sOpen).state.path =
      some (magic_split envOk.getpath) :=
  ⟨(c10_path envOk sCached rfl).1 ["/etc/magic", "/usr/share/misc/magic"] rfl rfl rfl,
    ((c10_path envOk sOpen rfl).2 (Or.inl rfl)).2⟩

end RubyMagic
